import Mathlib

/-!
Verification of the payment backend in `src/server.js` (an Express app
brokering requests to the Stripe API).

Shallow embedding conventions:

* JSON response bodies are modelled by `JsValue` / `Body`; `res.json(x)`
  becomes `Body.jsonBody x` with status 200 unless `res.status(n)` was
  called, and `res.send(string)` becomes `Body.textBody`.
* JavaScript optional request fields are modelled as `Option String` /
  `Option Int`; a field is *falsy* when it is `none` (absent, `null` or
  `undefined`), the empty string, or the number 0 — mirroring the JS
  truthiness used by `if (!planType || !currency || !amount)` and by
  `x || defaultValue`.
* The Stripe SDK is an external collaborator; it is modelled as a record
  of oracle functions (`StripeClient`).  Fallible calls return
  `Except String α`, an exception carrying the error message.
* Each handler returns its `HttpResponse` together with a trace
  (`List Effect`) of the processor calls it performed and the webhook
  dispatch branch it ran, so that claims about "no processor call
  occurs" / "no dispatch occurs" are statable.
-/

/-- A JSON value as produced by the server's `res.json` calls. -/
inductive JsValue where
  | s : String → JsValue
  | i : Int → JsValue
  | b : Bool → JsValue
  | null : JsValue
  | obj : List (String × JsValue) → JsValue
deriving Repr

/-- Top-level field lookup in a JSON object. -/
def JsValue.getField : JsValue → String → Option JsValue
  | .obj fields, k => fields.lookup k
  | _, _ => none

/-- Whether a JSON value is an object with a top-level field `k`. -/
def JsValue.hasField (v : JsValue) (k : String) : Bool :=
  (v.getField k).isSome

/-- An HTTP response body: `res.json` sends JSON, `res.send` on a string
sends plain text. -/
inductive Body where
  | jsonBody : JsValue → Body
  | textBody : String → Body
deriving Repr

/-- An HTTP response as assembled by `res.status(n).json/send(...)`
(status defaults to 200). -/
structure HttpResponse where
  status : Nat
  body : Body
deriving Repr

/-- `body` is structured JSON carrying both an `error` tag and a
`message` field (the shape claimed for every failure response). -/
def Body.isStructuredError : Body → Bool
  | .jsonBody v => v.hasField "error" && v.hasField "message"
  | .textBody _ => false

/-- JS truthiness of an optional string field: absent, `null`,
`undefined` and `""` are falsy. -/
def strTruthy : Option String → Bool
  | none => false
  | some s => !(s == "")

/-- JS truthiness of an optional integer field: absent and `0` are
falsy.  (Floats/NaN are not used by this server's fields.) -/
def intTruthy : Option Int → Bool
  | none => false
  | some n => !(n == 0)

/-- The JS idiom `x || d` on an optional string: the default replaces a
falsy value. -/
def strOr (x : Option String) (d : String) : String :=
  match x with
  | none => d
  | some s => if s == "" then d else s

/-- `String.toLowerCase` as applied to ASCII currency codes:
per-character lower-casing. -/
def jsToLower (s : String) : String :=
  String.mk (s.data.map Char.toLower)

/-- Body of a POST `/create-payment-intent` request
(`req.body` destructured at the top of the handler). -/
structure PaymentRequest where
  planType : Option String
  currency : Option String
  amount : Option Int
  customerEmail : Option String
  customerName : Option String
deriving Repr

/-- A Stripe customer, referenced by its opaque id. -/
structure Customer where
  id : String
deriving Repr, DecidableEq

/-- A Stripe payment intent as consumed by the success response. -/
structure PaymentIntent where
  id : String
  client_secret : String
deriving Repr, DecidableEq

/-- Argument object of `stripe.customers.create`. -/
structure CustomerCreateParams where
  email : String
  name : String
  metadataPlanType : String
  metadataSource : String
deriving Repr, DecidableEq

/-- Argument object of `stripe.paymentIntents.create`. -/
structure PaymentIntentCreateParams where
  amount : Int
  currency : String
  customer : Option String
  description : String
  metadataPlanType : String
  metadataCustomerEmail : String
  metadataSource : String
  confirm : Bool
  automaticPaymentMethodsEnabled : Bool
deriving Repr, DecidableEq

/-- `price` object inside a subscription item. -/
structure Price where
  nickname : Option String
deriving Repr, DecidableEq

/-- An item of `subscription.items.data`; `price` may be missing
(`?.` in the source). -/
structure SubscriptionItem where
  price : Option Price
deriving Repr, DecidableEq

/-- A Stripe subscription as consumed by the status handler. -/
structure Subscription where
  id : String
  status : String
  current_period_end : Int
  items : List SubscriptionItem
deriving Repr, DecidableEq

/-- `object` payload of a webhook event (`event.data.object`). -/
structure EvObject where
  id : String
deriving Repr, DecidableEq

/-- `data` field of a webhook event; `object` may be `undefined`. -/
structure EventData where
  object : Option EvObject
deriving Repr, DecidableEq

/-- A Stripe webhook event after signature verification; `data` may be
`undefined` on a malformed payload, making `event.data.object` throw. -/
structure WebhookEvent where
  type : String
  data : Option EventData
deriving Repr, DecidableEq

/-- Observable side effects of a handler run: processor calls (with the
exact argument objects) and the webhook dispatch branch that ran. -/
inductive Effect where
  | callCustomersCreate : CustomerCreateParams → Effect
  | callPaymentIntentsCreate : PaymentIntentCreateParams → Effect
  | callCustomersList : String → Nat → Effect
  | callSubscriptionsList : String → String → Nat → Effect
  | dispatchBranch : String → Effect
deriving Repr, DecidableEq

/-- The Stripe SDK surface used by the server, as an oracle: each call
either returns a value or throws an error message. -/
structure StripeClient where
  customersCreate : CustomerCreateParams → Except String Customer
  paymentIntentsCreate : PaymentIntentCreateParams → Except String PaymentIntent
  customersList : String → Nat → Except String (List Customer)
  subscriptionsList : String → String → Nat → Except String (List Subscription)
  constructEvent : String → Option String → String → Except String WebhookEvent

/-- The `stripe.customers.create` argument object built at
`src/server.js:56-63`: `name` falls back to `'French Learning Student'`. -/
def customerParamsOf (req : PaymentRequest) : CustomerCreateParams :=
  { email := (req.customerEmail).getD ""
  , name := strOr req.customerName "French Learning Student"
  , metadataPlanType := (req.planType).getD ""
  , metadataSource := "french-learning-app" }

/-- The `stripe.paymentIntents.create` argument object built at
`src/server.js:70-86`: currency lower-cased, `customer` present only when
a customer was created, `metadata.customerEmail` falls back to `'guest'`,
`confirm: false`, automatic payment methods enabled. -/
def intentParamsOf (req : PaymentRequest) (customer : Option Customer) :
    PaymentIntentCreateParams :=
  { amount := (req.amount).getD 0
  , currency := jsToLower ((req.currency).getD "")
  , customer := customer.map Customer.id
  , description := "French Learning App - " ++ (req.planType).getD "" ++ " subscription"
  , metadataPlanType := (req.planType).getD ""
  , metadataCustomerEmail := strOr req.customerEmail "guest"
  , metadataSource := "french-learning-app"
  , confirm := false
  , automaticPaymentMethodsEnabled := true }

/-- The best-effort customer creation step (`src/server.js:53-67`):
`let customer = null; if (customerEmail) try { customer = ... } catch`.
Returns the resulting customer (or `none`) and the processor calls
made. -/
def attemptCustomer (client : StripeClient) (req : PaymentRequest) :
    Option Customer × List Effect :=
  if strTruthy req.customerEmail then
    match client.customersCreate (customerParamsOf req) with
    | .ok c => (some c, [Effect.callCustomersCreate (customerParamsOf req)])
    | .error _ => (none, [Effect.callCustomersCreate (customerParamsOf req)])
  else (none, [])

/-- The POST `/create-payment-intent` handler (`src/server.js:39-103`).
Validation runs first; customer creation is attempted only when an email
is supplied and its failure is swallowed (`customer` stays `null`); the
payment-intent call's failure reaches the outer catch and yields a 500
with the error message. -/
def createPaymentIntentHandler (client : StripeClient) (req : PaymentRequest) :
    HttpResponse × List Effect :=
  if !strTruthy req.planType || !strTruthy req.currency || !intTruthy req.amount then
    ({ status := 400
     , body := .jsonBody (.obj
         [("error", .s "Missing required fields: planType, currency, amount")]) }, [])
  else
    let customer := (attemptCustomer client req).1
    let custTrace := (attemptCustomer client req).2
    match client.paymentIntentsCreate (intentParamsOf req customer) with
    | .ok pi =>
        ({ status := 200
         , body := .jsonBody (.obj
             [ ("clientSecret", .s pi.client_secret)
             , ("paymentIntentId", .s pi.id)
             , ("customerId", match customer with
                              | some c => .s c.id
                              | none => .null) ]) }
        , custTrace ++ [Effect.callPaymentIntentsCreate (intentParamsOf req customer)])
    | .error msg =>
        ({ status := 500
         , body := .jsonBody (.obj
             [ ("error", .s "Payment intent creation failed")
             , ("message", .s msg) ]) }
        , custTrace ++ [Effect.callPaymentIntentsCreate (intentParamsOf req customer)])

/-- Plan name shown for a subscription
(`subscription.items.data[0]?.price?.nickname || 'Premium'`,
`src/server.js:140`): any step missing, `null`, or an empty nickname
falls back to the literal `'Premium'`. -/
def planNameOf (sub : Subscription) : String :=
  match sub.items.head? with
  | none => "Premium"
  | some item =>
      match item.price with
      | none => "Premium"
      | some price => strOr price.nickname "Premium"

/-- The optional nickname reachable through
`items.data[0]?.price?.nickname`. -/
def subNickname (sub : Subscription) : Option String :=
  (sub.items.head?).bind fun item => (item.price).bind Price.nickname

/-- The GET `/subscription-status/:customerEmail` handler
(`src/server.js:106-157`): look the customer up by email (limit 1);
if none, answer `Customer not found`; else list its active
subscriptions (limit 10) and shape the first one, if any, into the
response; any processor failure reaches the catch and yields a 500. -/
def subscriptionStatusHandler (client : StripeClient) (customerEmail : String) :
    HttpResponse × List Effect :=
  match client.customersList customerEmail 1 with
  | .error msg =>
      ({ status := 500
       , body := .jsonBody (.obj
           [ ("error", .s "Failed to check subscription status")
           , ("message", .s msg) ]) }
      , [Effect.callCustomersList customerEmail 1])
  | .ok customers =>
      match customers with
      | [] =>
          ({ status := 200
           , body := .jsonBody (.obj
               [ ("hasSubscription", .b false)
               , ("message", .s "Customer not found") ]) }
          , [Effect.callCustomersList customerEmail 1])
      | customer :: _ =>
          match client.subscriptionsList customer.id "active" 10 with
          | .error msg =>
              ({ status := 500
               , body := .jsonBody (.obj
                   [ ("error", .s "Failed to check subscription status")
                   , ("message", .s msg) ]) }
              , [ Effect.callCustomersList customerEmail 1
                , Effect.callSubscriptionsList customer.id "active" 10 ])
          | .ok subs =>
              match subs with
              | sub :: _ =>
                  ({ status := 200
                   , body := .jsonBody (.obj
                       [ ("hasSubscription", .b true)
                       , ("subscription", .obj
                           [ ("id", .s sub.id)
                           , ("status", .s sub.status)
                           , ("currentPeriodEnd", .i sub.current_period_end)
                           , ("planName", .s (planNameOf sub)) ]) ]) }
                  , [ Effect.callCustomersList customerEmail 1
                    , Effect.callSubscriptionsList customer.id "active" 10 ])
              | [] =>
                  ({ status := 200
                   , body := .jsonBody (.obj
                       [ ("hasSubscription", .b false)
                       , ("message", .s "No active subscriptions found") ]) }
                  , [ Effect.callCustomersList customerEmail 1
                    , Effect.callSubscriptionsList customer.id "active" 10 ])

/-- The four event-type tags recognized by the webhook switch
(`src/server.js:176-212`). -/
def recognizedEventTypes : List String :=
  [ "payment_intent.succeeded"
  , "payment_intent.payment_failed"
  , "invoice.payment_succeeded"
  , "customer.subscription.deleted" ]

/-- The webhook switch body (`src/server.js:176-212`).  Every
recognized branch reads `event.data.object` and logs its `id`; that
access throws (a `TypeError`, modelled as `.error`) when `data` or
`object` is `undefined`.  The default branch only logs the tag and
never throws.  The returned effect records which branch ran. -/
def webhookDispatch (event : WebhookEvent) : Except String Effect :=
  if event.type ∈ recognizedEventTypes then
    match (event.data).bind EventData.object with
    | some _ => .ok (Effect.dispatchBranch event.type)
    | none => .error "Cannot read properties of undefined"
  else
    .ok (Effect.dispatchBranch "default")

/-- The POST `/webhook` handler (`src/server.js:160-220`):
`stripe.webhooks.constructEvent(req.body, sig, endpointSecret)` throws
on a bad or missing signature, answered by
`res.status(400).send('Webhook Error: ' + err.message)` before any
dispatch; a verified event is dispatched, answered `{received: true}`,
and a throwing dispatch is answered by a 500 JSON body. -/
def webhookHandler (client : StripeClient) (rawBody : String)
    (sig : Option String) (endpointSecret : String) :
    HttpResponse × List Effect :=
  match client.constructEvent rawBody sig endpointSecret with
  | .error errMsg =>
      ({ status := 400, body := .textBody ("Webhook Error: " ++ errMsg) }, [])
  | .ok event =>
      match webhookDispatch event with
      | .ok eff =>
          ({ status := 200, body := .jsonBody (.obj [("received", .b true)]) }
          , [eff])
      | .error _ =>
          ({ status := 500
           , body := .jsonBody (.obj [("error", .s "Webhook processing failed")]) }
          , [])

/-- Field lookup on a response body (none on a plain-text body). -/
def Body.jsonField : Body → String → Option JsValue
  | .jsonBody v, k => v.getField k
  | .textBody _, _ => none

/-- Whether a response body is a JSON object with field `k`. -/
def Body.hasJsonField (b : Body) (k : String) : Bool :=
  (b.jsonField k).isSome

/-- The class of an HTTP status code (4 for client errors, 5 for server
errors). -/
def statusClass (n : Nat) : Nat := n / 100

/-- A concrete processor oracle for instantiating the theorems: every
call succeeds with fixed small objects, and signature verification
yields a fixed verified event. -/
def baseClient : StripeClient :=
  { customersCreate := fun _ => .ok { id := "cus_1" }
  , paymentIntentsCreate := fun _ => .ok { id := "pi_1", client_secret := "cs_1" }
  , customersList := fun _ _ => .ok [{ id := "cus_1" }]
  , subscriptionsList := fun _ _ _ => .ok []
  , constructEvent := fun _ _ _ =>
      .ok { type := "payment_intent.succeeded"
          , data := some { object := some { id := "pi_1" } } } }

/-- A processor oracle whose signature verification always fails. -/
def sigFailClient : StripeClient :=
  { baseClient with constructEvent := fun _ _ _ => .error "No signatures found" }

/-- A processor oracle where customer creation fails but payment-intent
creation succeeds. -/
def custFailClient : StripeClient :=
  { baseClient with customersCreate := fun _ => .error "email invalid" }

/-- A fully populated sample payment request. -/
def sampleReq : PaymentRequest :=
  { planType := some "monthly"
  , currency := some "USD"
  , amount := some 999
  , customerEmail := some "student@example.com"
  , customerName := none }

/-- A processor oracle whose customer lookup finds nobody. -/
def emptyListClient : StripeClient :=
  { baseClient with customersList := fun _ _ => .ok [] }

/-- A processor oracle whose customer lookup throws. -/
def listFailClient : StripeClient :=
  { baseClient with customersList := fun _ _ => .error "rate limited" }

/-- A verified event with a recognized type but an `undefined` `data`
payload, so its dispatch branch throws reading `event.data.object`. -/
def malformedEvent : WebhookEvent :=
  { type := "payment_intent.succeeded", data := none }

/-- A verified event whose type is none of the recognized tags. -/
def unknownEvent : WebhookEvent :=
  { type := "charge.refunded", data := some { object := some { id := "ch_1" } } }

/-- An active subscription whose first item's price has no nickname. -/
def noNicknameSub : Subscription :=
  { id := "sub_1"
  , status := "active"
  , current_period_end := 1767225600
  , items := [{ price := some { nickname := none } }] }

/-- A processor oracle whose signature verification yields
`malformedEvent`. -/
def malformedEventClient : StripeClient :=
  { baseClient with constructEvent := fun _ _ _ => .ok malformedEvent }

theorem attemptCustomer_snd (client : StripeClient) (req : PaymentRequest) :
    (attemptCustomer client req).2 =
      if strTruthy req.customerEmail then
        [Effect.callCustomersCreate (customerParamsOf req)]
      else [] := by
  unfold attemptCustomer
  by_cases he : strTruthy req.customerEmail
  · cases client.customersCreate (customerParamsOf req) <;> simp [he]
  · simp [he]

theorem createPaymentIntent_trace (client : StripeClient) (req : PaymentRequest)
    (hp : strTruthy req.planType = true) (hcur : strTruthy req.currency = true)
    (ha : intTruthy req.amount = true) :
    (createPaymentIntentHandler client req).2 =
      (attemptCustomer client req).2 ++
      [Effect.callPaymentIntentsCreate
        (intentParamsOf req (attemptCustomer client req).1)] := by
  unfold createPaymentIntentHandler
  simp only [hp, hcur, ha]
  cases client.paymentIntentsCreate (intentParamsOf req (attemptCustomer client req).1) <;>
    simp

/-- C1: a POST `/webhook` request whose signature verification fails
(`constructEvent` throws) is answered with status 400 — a client-error
(4xx) status — whose body carries the failure reason, and no dispatch
branch (not even the default one) runs: the effect trace is empty. -/
theorem webhook_sig_failure_rejects (client : StripeClient) (rawBody : String)
    (sig : Option String) (secret errMsg : String)
    (h : client.constructEvent rawBody sig secret = .error errMsg) :
    (webhookHandler client rawBody sig secret).1.status = 400 ∧
    statusClass (webhookHandler client rawBody sig secret).1.status = 4 ∧
    (webhookHandler client rawBody sig secret).1.body
      = .textBody ("Webhook Error: " ++ errMsg) ∧
    (webhookHandler client rawBody sig secret).2 = [] := by
  simp [webhookHandler, h, statusClass]

/-- C1 witness: the theorem applied to a concrete failing verification. -/
theorem webhook_sig_failure_rejects_witness :
    (webhookHandler sigFailClient "payload" none "whsec_test").1.status = 400 ∧
    statusClass (webhookHandler sigFailClient "payload" none "whsec_test").1.status = 4 ∧
    (webhookHandler sigFailClient "payload" none "whsec_test").1.body
      = .textBody ("Webhook Error: " ++ "No signatures found") ∧
    (webhookHandler sigFailClient "payload" none "whsec_test").2 = [] :=
  webhook_sig_failure_rejects sigFailClient "payload" none "whsec_test"
    "No signatures found" rfl

/-- C3: a POST `/create-payment-intent` request with a missing or falsy
`planType`, `currency` or `amount` is answered with the exact 400
missing-fields response, and no processor call occurs (empty trace). -/
theorem missing_fields_rejected (client : StripeClient) (req : PaymentRequest)
    (h : strTruthy req.planType = false ∨ strTruthy req.currency = false ∨
         intTruthy req.amount = false) :
    (createPaymentIntentHandler client req).1 =
      { status := 400
      , body := .jsonBody (.obj
          [("error", .s "Missing required fields: planType, currency, amount")]) } ∧
    statusClass (createPaymentIntentHandler client req).1.status = 4 ∧
    (createPaymentIntentHandler client req).2 = [] := by
  have hc : (!strTruthy req.planType || !strTruthy req.currency ||
      !intTruthy req.amount) = true := by
    rcases h with h | h | h <;> simp [h]
  unfold createPaymentIntentHandler
  simp [hc, statusClass]

/-- C3 witness: the theorem applied to a request lacking `planType`. -/
theorem missing_fields_rejected_witness :
    (createPaymentIntentHandler baseClient { sampleReq with planType := none }).1 =
      { status := 400
      , body := .jsonBody (.obj
          [("error", .s "Missing required fields: planType, currency, amount")]) } ∧
    statusClass (createPaymentIntentHandler baseClient
      { sampleReq with planType := none }).1.status = 4 ∧
    (createPaymentIntentHandler baseClient { sampleReq with planType := none }).2 = [] :=
  missing_fields_rejected baseClient { sampleReq with planType := none }
    (Or.inl rfl)

/-- C6: a GET `/subscription-status/:email` request for which the
customer lookup returns zero customers is answered with exactly
`hasSubscription: false, message: Customer not found`, and no
subscription-list call occurs — the trace holds only the customer
lookup. -/
theorem customer_not_found_exact (client : StripeClient) (email : String)
    (h : client.customersList email 1 = .ok []) :
    (subscriptionStatusHandler client email).1 =
      { status := 200
      , body := .jsonBody (.obj
          [("hasSubscription", .b false), ("message", .s "Customer not found")]) } ∧
    (subscriptionStatusHandler client email).2 = [Effect.callCustomersList email 1] ∧
    ∀ c s l, Effect.callSubscriptionsList c s l ∉ (subscriptionStatusHandler client email).2 := by
  simp [subscriptionStatusHandler, h]

/-- C6 witness: the theorem applied to a concrete empty lookup. -/
theorem customer_not_found_exact_witness :
    (subscriptionStatusHandler emptyListClient "ghost@example.com").1 =
      { status := 200
      , body := .jsonBody (.obj
          [("hasSubscription", .b false), ("message", .s "Customer not found")]) } ∧
    (subscriptionStatusHandler emptyListClient "ghost@example.com").2
      = [Effect.callCustomersList "ghost@example.com" 1] ∧
    ∀ c s l, Effect.callSubscriptionsList c s l ∉
      (subscriptionStatusHandler emptyListClient "ghost@example.com").2 :=
  customer_not_found_exact emptyListClient "ghost@example.com" rfl

/-- C4: on a valid request carrying a customer email, a throwing
customer-creation call is swallowed: the payment intent is still created
(the creation call is in the trace) and the success response's
`customerId` is `null`. -/
theorem customer_failure_nonfatal (client : StripeClient) (req : PaymentRequest)
    (e : String) (pi : PaymentIntent)
    (hp : strTruthy req.planType = true) (hcur : strTruthy req.currency = true)
    (ha : intTruthy req.amount = true) (he : strTruthy req.customerEmail = true)
    (hc : client.customersCreate (customerParamsOf req) = .error e)
    (hpi : client.paymentIntentsCreate (intentParamsOf req none) = .ok pi) :
    (createPaymentIntentHandler client req).1 =
      { status := 200
      , body := .jsonBody (.obj
          [ ("clientSecret", .s pi.client_secret)
          , ("paymentIntentId", .s pi.id)
          , ("customerId", .null) ]) } ∧
    Effect.callPaymentIntentsCreate (intentParamsOf req none)
      ∈ (createPaymentIntentHandler client req).2 := by
  have hac : attemptCustomer client req =
      (none, [Effect.callCustomersCreate (customerParamsOf req)]) := by
    unfold attemptCustomer
    simp [he, hc]
  unfold createPaymentIntentHandler
  simp [hp, hcur, ha, hac, hpi]

/-- C4 witness: the theorem applied to a client whose customer creation
fails while payment-intent creation succeeds. -/
theorem customer_failure_nonfatal_witness :
    (createPaymentIntentHandler custFailClient sampleReq).1 =
      { status := 200
      , body := .jsonBody (.obj
          [ ("clientSecret", .s "cs_1")
          , ("paymentIntentId", .s "pi_1")
          , ("customerId", .null) ]) } ∧
    Effect.callPaymentIntentsCreate (intentParamsOf sampleReq none)
      ∈ (createPaymentIntentHandler custFailClient sampleReq).2 :=
  customer_failure_nonfatal custFailClient sampleReq "email invalid"
    { id := "pi_1", client_secret := "cs_1" } rfl rfl rfl rfl rfl rfl

/-- C8: a POST `/webhook` request whose signature verifies and whose
event type is none of the four recognized tags is still answered with
status 200 and body `received: true`; the default branch runs and no
error is produced. -/
theorem unrecognized_event_acknowledged (client : StripeClient) (rawBody : String)
    (sig : Option String) (secret : String) (event : WebhookEvent)
    (h1 : client.constructEvent rawBody sig secret = .ok event)
    (h2 : event.type ∉ recognizedEventTypes) :
    (webhookHandler client rawBody sig secret).1 =
      { status := 200, body := .jsonBody (.obj [("received", .b true)]) } ∧
    (webhookHandler client rawBody sig secret).2 = [Effect.dispatchBranch "default"] := by
  unfold webhookHandler webhookDispatch
  simp [h1, h2]

/-- C8 witness: the theorem applied to a verified event of an
unrecognized type. -/
theorem unrecognized_event_acknowledged_witness :
    (webhookHandler
      { baseClient with constructEvent := fun _ _ _ => .ok unknownEvent }
      "payload" (some "t=1") "whsec_test").1 =
      { status := 200, body := .jsonBody (.obj [("received", .b true)]) } ∧
    (webhookHandler
      { baseClient with constructEvent := fun _ _ _ => .ok unknownEvent }
      "payload" (some "t=1") "whsec_test").2 = [Effect.dispatchBranch "default"] :=
  unrecognized_event_acknowledged
    { baseClient with constructEvent := fun _ _ _ => .ok unknownEvent }
    "payload" (some "t=1") "whsec_test" unknownEvent rfl (by decide)

/-- C9: a POST `/webhook` request whose signature verifies but whose
dispatch throws is answered with status 500, a server-error status in a
different hundreds class from the 400 used for signature failure. -/
theorem dispatch_failure_server_error (client : StripeClient) (rawBody : String)
    (sig : Option String) (secret e : String) (event : WebhookEvent)
    (h1 : client.constructEvent rawBody sig secret = .ok event)
    (h2 : webhookDispatch event = .error e) :
    (webhookHandler client rawBody sig secret).1.status = 500 ∧
    statusClass (webhookHandler client rawBody sig secret).1.status = 5 ∧
    statusClass (webhookHandler client rawBody sig secret).1.status ≠ statusClass 400 := by
  unfold webhookHandler
  simp [h1, h2, statusClass]

/-- C9 witness: the theorem applied to a verified event whose dispatch
branch throws reading `event.data.object`. -/
theorem dispatch_failure_server_error_witness :
    (webhookHandler malformedEventClient "payload" (some "t=1") "whsec_test").1.status = 500 ∧
    statusClass (webhookHandler malformedEventClient "payload" (some "t=1") "whsec_test").1.status = 5 ∧
    statusClass (webhookHandler malformedEventClient "payload" (some "t=1") "whsec_test").1.status
      ≠ statusClass 400 :=
  dispatch_failure_server_error malformedEventClient "payload" (some "t=1")
    "whsec_test" "Cannot read properties of undefined" malformedEvent rfl rfl

/-- C5: on a valid request, the payment-intent creation call is made
and every such call in the trace carries the lower-cased form of the
request's currency. -/
theorem currency_forwarded_lowercase (client : StripeClient) (req : PaymentRequest)
    (hp : strTruthy req.planType = true) (hcur : strTruthy req.currency = true)
    (ha : intTruthy req.amount = true) :
    (∃ p, Effect.callPaymentIntentsCreate p
        ∈ (createPaymentIntentHandler client req).2) ∧
    ∀ p, Effect.callPaymentIntentsCreate p
        ∈ (createPaymentIntentHandler client req).2 →
      p.currency = jsToLower ((req.currency).getD "") := by
  have ht := createPaymentIntent_trace client req hp hcur ha
  constructor
  · exact ⟨intentParamsOf req (attemptCustomer client req).1, by rw [ht]; simp⟩
  · intro p hmem
    rw [ht, attemptCustomer_snd] at hmem
    rcases List.mem_append.mp hmem with hm | hm
    · by_cases he : strTruthy req.customerEmail <;> simp [he] at hm
    · simp at hm
      rw [hm]
      simp [intentParamsOf]

/-- C5 witness: the theorem applied to `sampleReq`, whose currency is
the upper-case `USD`. -/
theorem currency_forwarded_lowercase_witness :
    ((∃ p, Effect.callPaymentIntentsCreate p
        ∈ (createPaymentIntentHandler baseClient sampleReq).2) ∧
    ∀ p, Effect.callPaymentIntentsCreate p
        ∈ (createPaymentIntentHandler baseClient sampleReq).2 →
      p.currency = jsToLower ((sampleReq.currency).getD "")) ∧
    jsToLower ((sampleReq.currency).getD "") = "usd" :=
  ⟨currency_forwarded_lowercase baseClient sampleReq rfl rfl rfl, rfl⟩

theorem planNameOf_premium (sub : Subscription) (h : subNickname sub = none) :
    planNameOf sub = "Premium" := by
  unfold planNameOf
  unfold subNickname at h
  cases hh : sub.items.head? with
  | none => rfl
  | some item =>
    rw [hh] at h
    simp only [Option.some_bind] at h
    cases hpr : item.price with
    | none => simp [hpr]
    | some price =>
      rw [hpr] at h
      simp only [Option.some_bind] at h
      simp [hpr, strOr, h]

/-- C7: when a customer matches and the first active subscription's
plan nickname is absent (`items.data[0]?.price?.nickname` is missing or
`null`), the response's `planName` is the literal `Premium`. -/
theorem missing_nickname_premium (client : StripeClient) (email : String)
    (c : Customer) (cs : List Customer) (sub : Subscription)
    (subs : List Subscription)
    (h1 : client.customersList email 1 = .ok (c :: cs))
    (h2 : client.subscriptionsList c.id "active" 10 = .ok (sub :: subs))
    (h3 : subNickname sub = none) :
    (subscriptionStatusHandler client email).1 =
      { status := 200
      , body := .jsonBody (.obj
          [ ("hasSubscription", .b true)
          , ("subscription", .obj
              [ ("id", .s sub.id)
              , ("status", .s sub.status)
              , ("currentPeriodEnd", .i sub.current_period_end)
              , ("planName", .s "Premium") ]) ]) } := by
  unfold subscriptionStatusHandler
  simp [h1, h2, planNameOf_premium sub h3]

/-- C7 witness: the theorem applied to a subscription whose first item
has a price without a nickname. -/
theorem missing_nickname_premium_witness :
    (subscriptionStatusHandler
      { baseClient with subscriptionsList := fun _ _ _ => .ok [noNicknameSub] }
      "student@example.com").1 =
      { status := 200
      , body := .jsonBody (.obj
          [ ("hasSubscription", .b true)
          , ("subscription", .obj
              [ ("id", .s "sub_1")
              , ("status", .s "active")
              , ("currentPeriodEnd", .i 1767225600)
              , ("planName", .s "Premium") ]) ]) } :=
  missing_nickname_premium
    { baseClient with subscriptionsList := fun _ _ _ => .ok [noNicknameSub] }
    "student@example.com" { id := "cus_1" } [] noNicknameSub [] rfl rfl rfl

/-- C10: on a valid request, (a) when a customer email is supplied but
no customer name, the customer-creation call is made and carries the
literal name `French Learning Student`; (b) when no customer email is
supplied, the payment-intent call is made and its
`metadata.customerEmail` is the literal `guest`. -/
theorem default_name_and_guest_metadata (client : StripeClient)
    (req : PaymentRequest)
    (hp : strTruthy req.planType = true) (hcur : strTruthy req.currency = true)
    (ha : intTruthy req.amount = true) :
    (strTruthy req.customerEmail = true → req.customerName = none →
      (∃ p, Effect.callCustomersCreate p
          ∈ (createPaymentIntentHandler client req).2) ∧
      ∀ p, Effect.callCustomersCreate p
          ∈ (createPaymentIntentHandler client req).2 →
        p.name = "French Learning Student") ∧
    (req.customerEmail = none →
      (∃ p, Effect.callPaymentIntentsCreate p
          ∈ (createPaymentIntentHandler client req).2) ∧
      ∀ p, Effect.callPaymentIntentsCreate p
          ∈ (createPaymentIntentHandler client req).2 →
        p.metadataCustomerEmail = "guest") := by
  have ht := createPaymentIntent_trace client req hp hcur ha
  constructor
  · intro he hn
    rw [ht, attemptCustomer_snd]
    constructor
    · exact ⟨customerParamsOf req, by simp [he]⟩
    · intro p hmem
      rcases List.mem_append.mp hmem with hm | hm
      · simp [he] at hm
        rw [hm]
        simp [customerParamsOf, strOr, hn]
      · simp at hm
  · intro he
    have he' : strTruthy req.customerEmail = false := by rw [he]; rfl
    rw [ht, attemptCustomer_snd]
    simp only [he']
    constructor
    · exact ⟨intentParamsOf req (attemptCustomer client req).1, by simp⟩
    · intro p hmem
      simp at hmem
      rw [hmem]
      simp [intentParamsOf, strOr, he]

/-- C10 witness: part (a) at a request with an email and no name, part
(b) at a request with no email. -/
theorem default_name_and_guest_metadata_witness :
    ((∃ p, Effect.callCustomersCreate p
        ∈ (createPaymentIntentHandler baseClient sampleReq).2) ∧
      ∀ p, Effect.callCustomersCreate p
          ∈ (createPaymentIntentHandler baseClient sampleReq).2 →
        p.name = "French Learning Student") ∧
    ((∃ p, Effect.callPaymentIntentsCreate p
        ∈ (createPaymentIntentHandler baseClient
            { sampleReq with customerEmail := none }).2) ∧
      ∀ p, Effect.callPaymentIntentsCreate p
          ∈ (createPaymentIntentHandler baseClient
              { sampleReq with customerEmail := none }).2 →
        p.metadataCustomerEmail = "guest") :=
  ⟨(default_name_and_guest_metadata baseClient sampleReq rfl rfl rfl).1 rfl rfl,
   (default_name_and_guest_metadata baseClient
      { sampleReq with customerEmail := none } rfl rfl rfl).2 rfl⟩

/-- C2 counterexample: the webhook signature-verification failure is a
failing response (status 400) whose body is a plain-text string, so it
is not structured JSON carrying both an `error` tag and a `message`
field — refuting the claim that every failure response has that shape. -/
theorem failure_body_shape_counterexample :
    (webhookHandler sigFailClient "payload" none "whsec_test").1.status = 400 ∧
    (webhookHandler sigFailClient "payload" none "whsec_test").1.body.isStructuredError
      = false :=
  ⟨rfl, rfl⟩

/-- C2 (amended): failure responses are not uniformly structured JSON
with `error` and `message`.  (a) The webhook signature failure is a
plain-text body carrying the failure reason; (b) the missing-fields
validation response is JSON with an `error` tag but no `message`;
(c) the webhook dispatch-failure response is JSON with an `error` tag
but no `message`; (d) the subscription-status processor-failure
response does carry both `error` and `message`. -/
theorem failure_body_shapes (client : StripeClient) (rawBody : String)
    (sig : Option String) (secret errMsg e pmsg email : String)
    (req : PaymentRequest) (event : WebhookEvent) :
    (client.constructEvent rawBody sig secret = .error errMsg →
      (webhookHandler client rawBody sig secret).1.body
        = .textBody ("Webhook Error: " ++ errMsg)) ∧
    ((strTruthy req.planType = false ∨ strTruthy req.currency = false ∨
        intTruthy req.amount = false) →
      (createPaymentIntentHandler client req).1.body.hasJsonField "error" = true ∧
      (createPaymentIntentHandler client req).1.body.hasJsonField "message" = false) ∧
    (client.constructEvent rawBody sig secret = .ok event →
      webhookDispatch event = .error e →
      (webhookHandler client rawBody sig secret).1.body.hasJsonField "error" = true ∧
      (webhookHandler client rawBody sig secret).1.body.hasJsonField "message" = false) ∧
    (client.customersList email 1 = .error pmsg →
      (subscriptionStatusHandler client email).1.body.isStructuredError = true) := by
  refine ⟨?_, ?_, ?_, ?_⟩
  · intro h
    simp [webhookHandler, h]
  · intro h
    have hc : (!strTruthy req.planType || !strTruthy req.currency ||
        !intTruthy req.amount) = true := by
      rcases h with h | h | h <;> simp [h]
    unfold createPaymentIntentHandler
    simp [hc, Body.hasJsonField, Body.jsonField, JsValue.getField]
  · intro h1 h2
    unfold webhookHandler
    simp [h1, h2, Body.hasJsonField, Body.jsonField, JsValue.getField]
  · intro h
    unfold subscriptionStatusHandler
    simp [h, Body.isStructuredError, JsValue.hasField, JsValue.getField]

/-- C2 (amended) witness: each amended conjunct applied at a concrete
failing input. -/
theorem failure_body_shapes_witness :
    ((webhookHandler sigFailClient "payload" none "whsec_test").1.body
        = .textBody ("Webhook Error: " ++ "No signatures found")) ∧
    ((createPaymentIntentHandler baseClient
        { sampleReq with planType := none }).1.body.hasJsonField "error" = true ∧
      (createPaymentIntentHandler baseClient
        { sampleReq with planType := none }).1.body.hasJsonField "message" = false) ∧
    ((webhookHandler malformedEventClient "payload" none "whsec_test").1.body.hasJsonField
        "error" = true ∧
      (webhookHandler malformedEventClient "payload" none "whsec_test").1.body.hasJsonField
        "message" = false) ∧
    ((subscriptionStatusHandler listFailClient "ghost@example.com").1.body.isStructuredError
        = true) :=
  ⟨(failure_body_shapes sigFailClient "payload" none "whsec_test"
      "No signatures found" "" "" "ghost@example.com" sampleReq unknownEvent).1 rfl,
   (failure_body_shapes baseClient "payload" none "whsec_test"
      "" "" "" "ghost@example.com" { sampleReq with planType := none } unknownEvent).2.1
      (Or.inl rfl),
   (failure_body_shapes malformedEventClient "payload" none "whsec_test"
      "" "Cannot read properties of undefined" "" "ghost@example.com" sampleReq
      malformedEvent).2.2.1 rfl rfl,
   (failure_body_shapes listFailClient "payload" none "whsec_test"
      "" "" "rate limited" "ghost@example.com" sampleReq unknownEvent).2.2.2 rfl⟩
